import Mathlib

/-!
Shallow embedding of the bulk SMTP email verifier (src/index.js).

The embedding models the four components of the verifier:
* `parseSMTPResponse` — the response parser (source lines 22–29);
* `getMxHosts` — the resolver (source lines 31–46), with DNS modelled by an
  explicit environment of lookup oracles;
* `smtpProbeFull` / `smtpProbe` — the probe session (source lines 48–121),
  with the network modelled by a `SessionOutcome` describing which of the
  mutually exclusive resolution paths of the session promise occurs, and the
  per-command polling loop modelled by the finite list of buffer snapshots
  the loop observes before its timeout elapses;
* `probeLoop` / `verifyEmail` — the verification engine (source lines
  124–163); `probeLoop` additionally returns the trace of `(host, recipient)`
  probe invocations performed, so that exhaustion/ordering properties of the
  host loop can be stated.
-/

namespace EmailVerifier

/-- Transport reply: `{code, message}` as produced by the parser or as a
sentinel inside a probe session. -/
structure Reply where
  code : Nat
  message : String
deriving DecidableEq

/-- Result of one probe session: `{host, rcpt}` (source line 113). -/
structure ProbeResult where
  host : String
  rcpt : Reply
deriving DecidableEq

/-- JS `s.split(sep)` for a one-character separator (source line 125). -/
def splitChar (sep : Char) : List Char → List (List Char)
  | [] => [[]]
  | c :: cs =>
    let r := splitChar sep cs
    if c = sep then [] :: r
    else (c :: r.headI) :: r.tail

/-- `String(email).split('@')` at the string level. -/
def jsSplit (sep : Char) (s : String) : List String :=
  (splitChar sep s.toList).map String.mk

/-- JS `text.split(/\r\n|\n/)`: split on CRLF or bare LF; a lone CR does not
split (source line 23). -/
def splitLinesL : List Char → List (List Char)
  | [] => [[]]
  | '\r' :: '\n' :: cs => [] :: splitLinesL cs
  | '\n' :: cs => [] :: splitLinesL cs
  | c :: cs =>
    let r := splitLinesL cs
    (c :: r.headI) :: r.tail

/-- JS `lines[i].match(/^(\d{3})[ -](.*)/)`: a line matches when it starts
with three digits followed by a space or a hyphen; the extracted code is the
decimal value of the three digits (source lines 25–26). -/
def lineCode : List Char → Option Nat
  | d1 :: d2 :: d3 :: sep :: _ =>
    if 48 ≤ d1.toNat ∧ d1.toNat ≤ 57 ∧ 48 ≤ d2.toNat ∧ d2.toNat ≤ 57 ∧
        48 ≤ d3.toNat ∧ d3.toNat ≤ 57 ∧ (sep = ' ' ∨ sep = '-') then
      some ((d1.toNat - 48) * 100 + (d2.toNat - 48) * 10 + (d3.toNat - 48))
    else none
  | _ => none

/-- Backward scan of source lines 24–27: the code of the last line that
matches the leading-digits pattern, if any. -/
def lastCode : List (List Char) → Option Nat
  | [] => none
  | l :: ls =>
    match lastCode ls with
    | some c => some c
    | none => lineCode l

/-- JS `lines.join('\n')` (source line 26). -/
def joinNL : List (List Char) → List Char
  | [] => []
  | [l] => l
  | l :: ls => l ++ '\n' :: joinNL ls

/-- The response parser (source lines 22–29): split the buffer into lines,
drop empty lines, scan from the end for the first structurally matching
line; on a match return its code and the whole line-joined buffer, otherwise
return nothing. -/
def parseSMTPResponse (text : String) : Option Reply :=
  let lines := (splitLinesL text.toList).filter (fun l => l ≠ [])
  match lastCode lines with
  | some c => some ⟨c, String.mk (joinNL lines)⟩
  | none => none

/-- Role-based local parts (source lines 11–14). -/
def roleBased : List String :=
  ["admin", "support", "info", "contact", "sales",
   "help", "billing", "webmaster", "security"]

/-- Disposable domains (source lines 16–19); the JS `Set` is modelled as a
list with exact-string membership. -/
def disposableDomains : List String :=
  ["tempmail.com", "10minutemail.com", "guerrillamail.com",
   "yopmail.com", "mailinator.com"]

/-- JS `toLowerCase` restricted to ASCII, per character. -/
def lowerChar (c : Char) : Char :=
  if 'A' ≤ c ∧ c ≤ 'Z' then Char.ofNat (c.toNat + 32) else c

/-- JS `s.toLowerCase()` (source line 130). -/
def lowerStr (s : String) : String :=
  String.mk (s.toList.map lowerChar)

/-- One MX record as returned by `dns.resolveMx`. -/
structure MxRecord where
  exchange : String
  priority : Nat
deriving DecidableEq

/-- DNS modelled as an environment of three lookup oracles; an `Except.error`
models the promise rejecting (the `catch` branches of source lines 37, 43). -/
structure DnsEnv where
  resolveMx : String → Except String (List MxRecord)
  resolve4 : String → Except String (List String)
  resolve6 : String → Except String (List String)

/-- JS `m.exchange.replace(/\.$/, '')`: strip one trailing dot (source
line 36). -/
def stripTrailingDot (s : String) : String :=
  match s.toList.getLast? with
  | some '.' => String.mk s.toList.dropLast
  | _ => s

/-- Comparison used by `mx.sort((a, b) => a.priority - b.priority)` (source
line 35). -/
def mxLe (a b : MxRecord) : Prop := a.priority ≤ b.priority

instance : DecidableRel mxLe := fun a b => inferInstanceAs (Decidable (a.priority ≤ b.priority))

instance : IsTotal MxRecord mxLe := ⟨fun a b => Nat.le_total a.priority b.priority⟩

instance : IsTrans MxRecord mxLe := ⟨fun _ _ _ h1 h2 => Nat.le_trans h1 h2⟩

/-- The resolver (source lines 31–46). JS `Array.prototype.sort` is stable,
as is `List.insertionSort`, and a stable sort by priority is unique, so the
sorted order coincides. Note the control flow of the source: the A/AAAA
fallback runs only in the `catch` branch, i.e. only when the MX lookup
rejects; an MX lookup that fulfils with an empty list returns `[]` directly
(line 34), and an A lookup that rejects returns `[]` without attempting the
AAAA lookup (lines 39–44). -/
def getMxHosts (env : DnsEnv) (domain : String) : List String :=
  match env.resolveMx domain with
  | .ok mx =>
    if mx.isEmpty then []
    else (List.insertionSort mxLe mx).map (fun m => stripTrailingDot m.exchange)
  | .error _ =>
    match env.resolve4 domain with
    | .ok a =>
      if a ≠ [] then [domain]
      else
        match env.resolve6 domain with
        | .ok a6 => if a6 ≠ [] then [domain] else []
        | .error _ => []
    | .error _ => []

/-- Outcome of one `sendCmd` invocation (source lines 91–103): either the
`socket.write` callback reports an error (the promise rejects with it), or
the polling wait observes a finite list of buffer snapshots — one per 50 ms
poll — before the per-command timeout elapses. -/
inductive CmdOutcome where
  | writeError (msg : String)
  | polls (snaps : List String)
deriving DecidableEq

/-- The polling wait of `sendCmd` (source lines 96–101): at each poll, parse
the current buffer; resolve with the parsed reply when it exists and its
code is nonzero; when the snapshots are exhausted the timeout has elapsed
and the promise rejects with `smtp command timeout` (line 99). -/
def waitResp : List String → Except String Reply
  | [] => .error "smtp command timeout"
  | s :: rest =>
    match parseSMTPResponse s with
    | some r => if r.code ≠ 0 then .ok r else waitResp rest
    | none => waitResp rest

/-- Run one command: a write error rejects with its message, otherwise the
polling wait decides (source lines 91–103). -/
def runCmd : CmdOutcome → Except String Reply
  | .writeError msg => .error msg
  | .polls snaps => waitResp snaps

/-- Which of the mutually exclusive resolution paths of the probe-session
promise occurs. `connectError` is the `socket.on('error')` handler (source
lines 73–77); `globalTimeout` is the 8000 ms session timer firing first
(lines 62–65), which also covers a greeting that never parses (the greeting
wait of lines 82–89 has no per-command timeout); `connected` is the
`socket.on('connect')` flow having parsed a greeting, with the outcomes of
the EHLO, MAIL FROM and RCPT TO commands (lines 105–107). -/
inductive SessionOutcome where
  | connectError (msg : String)
  | globalTimeout
  | connected (ehlo mailFrom rcptTo : CmdOutcome)
deriving DecidableEq

/-- The probe session (source lines 48–121), returning the probe result
together with a flag recording that `cleanup()` released the connection
before the promise resolved on that path. The EHLO outcome is discarded
(`.catch(() => {})`, line 105); a MAIL FROM rejection is caught by the outer
`catch` and becomes a `protocol_error` sentinel (lines 114–118); a RCPT TO
rejection becomes a code-0 reply via its own `.catch` (line 107). -/
def smtpProbeFull (host : String) (_port : Nat) (_sender _rcptAddr : String)
    (o : SessionOutcome) : ProbeResult × Bool :=
  match o with
  | .connectError msg => (⟨host, ⟨0, "socket_error: " ++ msg⟩⟩, true)
  | .globalTimeout => (⟨host, ⟨0, "timeout"⟩⟩, true)
  | .connected _ehlo mailFrom rcptTo =>
    match runCmd mailFrom with
    | .error msg => (⟨host, ⟨0, "protocol_error: " ++ msg⟩⟩, true)
    | .ok _ =>
      match runCmd rcptTo with
      | .error msg => (⟨host, ⟨0, msg⟩⟩, true)
      | .ok r => (⟨host, r⟩, true)

/-- The probe result alone (the value the verification engine sees). -/
def smtpProbe (host : String) (port : Nat) (sender rcptAddr : String)
    (o : SessionOutcome) : ProbeResult :=
  (smtpProbeFull host port sender rcptAddr o).1

/-- The host loop of `verifyEmail` (source lines 139–162), with the network
modelled by `net : host → recipient → SessionOutcome`. Returns the
classification together with the trace of `(host, recipient)` probe
invocations performed. A reply of code 0 continues to the next host
(line 144); a code in `[200, 300)` triggers the catch-all re-probe with the
generated local part at the same domain (lines 146–156); codes in
`[500, 600)` and `[400, 500)` stop (lines 158–159); any other nonzero code
falls through to the next host; an exhausted list yields `unknown`
(line 162). -/
def probeLoop (net : String → String → SessionOutcome)
    (sender email domain freshLocal : String) :
    List String → String × List (String × String)
  | [] => ("unknown", [])
  | host :: rest =>
    let rcpt := (smtpProbe host 25 sender email (net host email)).rcpt
    if rcpt.code = 0 then
      let p := probeLoop net sender email domain freshLocal rest
      (p.1, (host, email) :: p.2)
    else if 200 ≤ rcpt.code ∧ rcpt.code < 300 then
      let fakeEmail := freshLocal ++ "@" ++ domain
      let fakeResult := smtpProbe host 25 sender fakeEmail (net host fakeEmail)
      if 200 ≤ fakeResult.rcpt.code ∧ fakeResult.rcpt.code < 300 then
        ("catch_all", [(host, email), (host, fakeEmail)])
      else
        ("valid", [(host, email), (host, fakeEmail)])
    else if 500 ≤ rcpt.code ∧ rcpt.code < 600 then ("invalid", [(host, email)])
    else if 400 ≤ rcpt.code ∧ rcpt.code < 500 then ("unknown", [(host, email)])
    else
      let p := probeLoop net sender email domain freshLocal rest
      (p.1, (host, email) :: p.2)

/-- The verification engine (source lines 124–163). `freshLocal` models the
randomized catch-all local part generated at line 148. -/
def verifyEmail (dns : DnsEnv) (net : String → String → SessionOutcome)
    (freshLocal : String) (email : String) (sender : String) : String :=
  match jsSplit '@' email with
  | [localPart, domain] =>
    if lowerStr localPart ∈ roleBased then "role_based"
    else
      let hosts := getMxHosts dns domain
      if hosts.isEmpty then "no_mx_record"
      else if domain ∈ disposableDomains then "disposable"
      else (probeLoop net sender email domain freshLocal hosts).1
  | _ => "invalid_format"

/-! Helper lemmas shared by the claim theorems. -/

/-- The host loop only ever classifies with one of its four outcome strings. -/
theorem probeLoop_fst_mem (net : String → String → SessionOutcome)
    (sender email domain freshLocal : String) (hosts : List String) :
    (probeLoop net sender email domain freshLocal hosts).1 ∈
      (["catch_all", "valid", "invalid", "unknown"] : List String) := by
  induction hosts with
  | nil => simp [probeLoop]
  | cons host rest ih =>
    simp only [probeLoop]
    split_ifs <;> simp_all

/-- A resolved command wait yields a reply parsed from one of the observed
buffer snapshots, and its code is nonzero. -/
theorem waitResp_ok (snaps : List String) (r : Reply)
    (h : waitResp snaps = Except.ok r) :
    (∃ s ∈ snaps, parseSMTPResponse s = some r) ∧ r.code ≠ 0 := by
  induction snaps with
  | nil => simp [waitResp] at h
  | cons s rest ih =>
    simp only [waitResp] at h
    cases hp : parseSMTPResponse s with
    | none =>
      simp only [hp] at h
      obtain ⟨⟨t, ht, hpt⟩, hc⟩ := ih h
      exact ⟨⟨t, by simp [ht], hpt⟩, hc⟩
    | some r2 =>
      simp only [hp] at h
      by_cases hc : r2.code ≠ 0
      · rw [if_pos hc] at h
        injection h with h
        subst h
        exact ⟨⟨s, by simp, hp⟩, hc⟩
      · rw [if_neg hc] at h
        obtain ⟨⟨t, ht, hpt⟩, hc2⟩ := ih h
        exact ⟨⟨t, by simp [ht], hpt⟩, hc2⟩

/-- A command that resolves with a reply got it from the response parser,
with a nonzero code. -/
theorem runCmd_ok (co : CmdOutcome) (r : Reply) (h : runCmd co = Except.ok r) :
    (∃ s, parseSMTPResponse s = some r) ∧ r.code ≠ 0 := by
  cases co with
  | writeError msg => simp [runCmd] at h
  | polls snaps =>
    simp only [runCmd] at h
    obtain ⟨⟨s, _, hs⟩, hc⟩ := waitResp_ok snaps r h
    exact ⟨⟨s, hs⟩, hc⟩

/-- A matched line's code is the value of three decimal digits, hence
at most 999. -/
theorem lineCode_le (l : List Char) (c : Nat) (h : lineCode l = some c) :
    c ≤ 999 := by
  match l with
  | [] => simp [lineCode] at h
  | [a] => simp [lineCode] at h
  | [a, b] => simp [lineCode] at h
  | [a, b, d] => simp [lineCode] at h
  | a :: b :: d :: sep :: rest =>
    simp only [lineCode] at h
    split_ifs at h with hcond
    · obtain ⟨h1, h2, h3, h4, h5, h6, _⟩ := hcond
      injection h with h
      omega

/-- The backward scan returns a code of some matched line, hence at
most 999. -/
theorem lastCode_le (ls : List (List Char)) (c : Nat)
    (h : lastCode ls = some c) : c ≤ 999 := by
  induction ls with
  | nil => simp [lastCode] at h
  | cons l ls ih =>
    simp only [lastCode] at h
    cases hl : lastCode ls with
    | some c2 =>
      rw [hl] at h
      injection h with h
      subst h
      exact ih hl
    | none =>
      rw [hl] at h
      exact lineCode_le l c h

/-- Every reply produced by the response parser has a code at most 999. -/
theorem parse_code_le (t : String) (r : Reply)
    (h : parseSMTPResponse t = some r) : r.code ≤ 999 := by
  simp only [parseSMTPResponse] at h
  cases hl : lastCode ((splitLinesL t.toList).filter (fun l => l ≠ [])) with
  | some c =>
    rw [hl] at h
    injection h with h
    subst h
    exact lastCode_le _ _ hl
  | none =>
    rw [hl] at h
    cases h

/-- The role-based short-circuit of the engine (source line 130). -/
theorem verifyEmail_role_eq (dns : DnsEnv) (net : String → String → SessionOutcome)
    (freshLocal email sender localPart domain : String)
    (hs : jsSplit '@' email = [localPart, domain])
    (hr : lowerStr localPart ∈ roleBased) :
    verifyEmail dns net freshLocal email sender = "role_based" := by
  simp only [verifyEmail, hs]
  rw [if_pos hr]

/-- A domain that is not literally in the disposable set is never classified
disposable. -/
theorem verifyEmail_ne_disposable (dns : DnsEnv)
    (net : String → String → SessionOutcome)
    (freshLocal email sender localPart domain : String)
    (hs : jsSplit '@' email = [localPart, domain])
    (hd : domain ∉ disposableDomains) :
    verifyEmail dns net freshLocal email sender ≠ "disposable" := by
  simp only [verifyEmail, hs]
  by_cases h1 : lowerStr localPart ∈ roleBased
  · rw [if_pos h1]
    decide
  · rw [if_neg h1]
    by_cases h2 : (getMxHosts dns domain).isEmpty = true
    · rw [if_pos h2]
      decide
    · rw [if_neg h2, if_neg hd]
      have hm := probeLoop_fst_mem net sender email domain freshLocal (getMxHosts dns domain)
      intro hcontra
      rw [hcontra] at hm
      exact absurd hm (by decide)

/-- A string that differs from a disposable-set entry only in letter case is
not itself in the set (all entries are lowercase and pairwise distinct). -/
theorem caseVariant_not_mem (d : String)
    (h : ∃ e ∈ disposableDomains, lowerStr d = lowerStr e ∧ d ≠ e) :
    d ∉ disposableDomains := by
  obtain ⟨e, he, hl, hne⟩ := h
  intro hd
  simp only [disposableDomains, List.mem_cons, List.not_mem_nil, or_false] at he hd
  rcases hd with rfl | rfl | rfl | rfl | rfl <;>
    rcases he with rfl | rfl | rfl | rfl | rfl <;>
      first
        | exact hne rfl
        | exact absurd hl (by decide)

/-! Concrete environments used by witnesses and counterexamples. -/

/-- DNS environment in which every lookup fails. -/
def dnsEmpty : DnsEnv :=
  ⟨fun _ => Except.error "queryMx ENOTFOUND", fun _ => Except.error "queryA ENOTFOUND",
   fun _ => Except.error "queryAaaa ENOTFOUND"⟩

/-- DNS environment resolving every domain to a single MX host. -/
def dnsDisp : DnsEnv :=
  ⟨fun d => Except.ok [⟨"mx." ++ d, 10⟩], fun _ => Except.error "queryA ENOTFOUND",
   fun _ => Except.error "queryAaaa ENOTFOUND"⟩

/-- Network in which every connection hits the global session timeout. -/
def netNone : String → String → SessionOutcome := fun _ _ => SessionOutcome.globalTimeout

/-- A session whose greeting, EHLO and MAIL FROM succeed and whose RCPT TO
wait observes the given buffer. -/
def sessionReplying (s : String) : SessionOutcome :=
  SessionOutcome.connected (CmdOutcome.polls ["250 ok\r\n"])
    (CmdOutcome.polls ["250 ok\r\n"]) (CmdOutcome.polls [s])

/-- Network replying 250 to the real recipient and 550 to anyone else. -/
def net1 : String → String → SessionOutcome := fun _ rcptAddr =>
  if rcptAddr = "u@d.com" then sessionReplying "250 ok\r\n"
  else sessionReplying "550 no\r\n"

/-- Network in which host mx1 replies 350 and every other host 550. -/
def net350 : String → String → SessionOutcome := fun host _ =>
  if host = "mx1" then sessionReplying "350 maybe\r\n"
  else sessionReplying "550 no\r\n"

/-- Network replying 550 to every recipient. -/
def net550 : String → String → SessionOutcome := fun _ _ => sessionReplying "550 no\r\n"

/-- Network for the two-host fallback scenario: the first MX times out, the
second replies 250 to the real recipient and 550 to anyone else. -/
def net3 : String → String → SessionOutcome := fun host rcptAddr =>
  if host = "a.example.org" then SessionOutcome.globalTimeout
  else if rcptAddr = "user@example.org" then sessionReplying "250 ok\r\n"
  else sessionReplying "550 no\r\n"

/-- DNS environment with two MX records, listed out of priority order. -/
def dns3 : DnsEnv :=
  ⟨fun _ => Except.ok [⟨"b.example.org", 20⟩, ⟨"a.example.org", 10⟩],
   fun _ => Except.error "queryA ENOTFOUND", fun _ => Except.error "queryAaaa ENOTFOUND"⟩

/-- Two MX records listed out of priority order, one with a trailing dot. -/
def mx5 : List MxRecord := [⟨"mx2.d.com.", 20⟩, ⟨"mx1.d.com", 10⟩]

/-- DNS environment returning `mx5` for every MX query. -/
def env5 : DnsEnv :=
  ⟨fun _ => Except.ok mx5, fun _ => Except.error "queryA ENOTFOUND",
   fun _ => Except.error "queryAaaa ENOTFOUND"⟩

/-- DNS environment whose MX lookup fulfils with an empty record list while
the IPv4 lookup resolves. -/
def envC5 : DnsEnv :=
  ⟨fun _ => Except.ok [], fun _ => Except.ok ["93.184.216.34"],
   fun _ => Except.error "queryAaaa ENOTFOUND"⟩

/-! The claim theorems. -/

/-- Claim C1: when the probe of a host returns a reply code in `[200, 300)`,
the engine runs exactly one second probe against the same host with the
freshly generated local part at the same domain; the classification is
`catch_all` when that probe's code is also in `[200, 300)` and `valid`
otherwise, and in either case no further host is consulted (the probe trace
is exactly the two probes of this host). -/
theorem claim_C1 (net : String → String → SessionOutcome)
    (sender email domain freshLocal host : String) (rest : List String)
    (h1 : 200 ≤ (smtpProbe host 25 sender email (net host email)).rcpt.code)
    (h2 : (smtpProbe host 25 sender email (net host email)).rcpt.code < 300) :
    probeLoop net sender email domain freshLocal (host :: rest) =
      (if 200 ≤ (smtpProbe host 25 sender (freshLocal ++ "@" ++ domain)
            (net host (freshLocal ++ "@" ++ domain))).rcpt.code ∧
          (smtpProbe host 25 sender (freshLocal ++ "@" ++ domain)
            (net host (freshLocal ++ "@" ++ domain))).rcpt.code < 300
        then "catch_all" else "valid",
       [(host, email), (host, freshLocal ++ "@" ++ domain)]) := by
  have h0 : ¬ (smtpProbe host 25 sender email (net host email)).rcpt.code = 0 := by omega
  simp only [probeLoop]
  rw [if_neg h0, if_pos ⟨h1, h2⟩]
  split_ifs <;> rfl

/-- Witness for C1: a host replying 250 to the real recipient and 550 to the
generated one is classified valid after exactly the two probes. -/
theorem claim_C1_witness :
    probeLoop net1 "s" "u@d.com" "d.com" "zz" ["mx.d.com"] =
      ("valid", [("mx.d.com", "u@d.com"), ("mx.d.com", "zz@d.com")]) := by
  have h := claim_C1 net1 "s" "u@d.com" "d.com" "zz" "mx.d.com" [] (by decide) (by decide)
  rw [h]
  decide

/-- Claim C2 (amended): the first host whose probe yields a reply code in
`[200, 600)` minus `[300, 400)` determines the final classification — codes
in `[500, 600)` yield invalid and codes in `[400, 500)` yield unknown, with
no subsequent host probed — while a nonzero code outside those ranges
(1xx, 3xx, or 600 and above) falls through to the next host exactly like
code 0. -/
theorem claim_C2_amended (net : String → String → SessionOutcome)
    (sender email domain freshLocal host : String) (rest : List String) (c : Nat)
    (hc : (smtpProbe host 25 sender email (net host email)).rcpt.code = c) :
    (500 ≤ c → c < 600 →
      probeLoop net sender email domain freshLocal (host :: rest) =
        ("invalid", [(host, email)])) ∧
    (400 ≤ c → c < 500 →
      probeLoop net sender email domain freshLocal (host :: rest) =
        ("unknown", [(host, email)])) ∧
    (c ≠ 0 → ¬ (200 ≤ c ∧ c < 300) → ¬ (400 ≤ c ∧ c < 600) →
      probeLoop net sender email domain freshLocal (host :: rest) =
        ((probeLoop net sender email domain freshLocal rest).1,
          (host, email) :: (probeLoop net sender email domain freshLocal rest).2)) := by
  refine ⟨fun h5 h6 => ?_, fun h4 h5 => ?_, fun h0 h23 h46 => ?_⟩
  · have h0 : ¬ c = 0 := by omega
    have h23 : ¬ (200 ≤ c ∧ c < 300) := by omega
    simp only [probeLoop, hc]
    rw [if_neg h0, if_neg h23, if_pos ⟨h5, h6⟩]
  · have h0 : ¬ c = 0 := by omega
    have h23 : ¬ (200 ≤ c ∧ c < 300) := by omega
    have h56 : ¬ (500 ≤ c ∧ c < 600) := by omega
    simp only [probeLoop, hc]
    rw [if_neg h0, if_neg h23, if_neg h56, if_pos ⟨h4, h5⟩]
  · have h56 : ¬ (500 ≤ c ∧ c < 600) := by omega
    have h45 : ¬ (400 ≤ c ∧ c < 500) := by omega
    simp only [probeLoop, hc]
    rw [if_neg h0, if_neg h23, if_neg h56, if_neg h45]

/-- Witness for C2: a first host replying 550 yields invalid after a single
probe, with the second candidate never consulted. -/
theorem claim_C2_witness :
    probeLoop net550 "s" "u@d.com" "d.com" "zz" ["mx1", "mx2"] =
      ("invalid", [("mx1", "u@d.com")]) :=
  (claim_C2_amended net550 "s" "u@d.com" "d.com" "zz" "mx1" ["mx2"] 550
    (by decide)).1 (by decide) (by decide)

/-- Counterexample to C2 as stated: host mx1's probe yields the nonzero code
350, yet the engine goes on to probe mx2, whose 550 reply determines the
classification — so the first nonzero coded reply does not determine the
final classification and a subsequent host is consulted. -/
theorem claim_C2_counterexample :
    (smtpProbe "mx1" 25 "s" "u@d.com" (net350 "mx1" "u@d.com")).rcpt.code = 350 ∧
    (350 : Nat) ≠ 0 ∧
    probeLoop net350 "s" "u@d.com" "d.com" "zz" ["mx1", "mx2"] =
      ("invalid", [("mx1", "u@d.com"), ("mx2", "u@d.com")]) := by decide

/-- Claim C3: a probe whose reply has code 0 causes the engine to continue
to the next candidate host; if every candidate host yields code 0 the
classification is unknown; and with two candidate hosts where the first
times out and the second answers 250 to the real recipient and 550 to the
randomized recipient, the classification is valid. -/
theorem claim_C3 :
    (∀ (net : String → String → SessionOutcome)
        (sender email domain freshLocal host : String) (rest : List String),
      (smtpProbe host 25 sender email (net host email)).rcpt.code = 0 →
      probeLoop net sender email domain freshLocal (host :: rest) =
        ((probeLoop net sender email domain freshLocal rest).1,
          (host, email) :: (probeLoop net sender email domain freshLocal rest).2)) ∧
    (∀ (net : String → String → SessionOutcome)
        (sender email domain freshLocal : String) (hosts : List String),
      (∀ host ∈ hosts, (smtpProbe host 25 sender email (net host email)).rcpt.code = 0) →
      (probeLoop net sender email domain freshLocal hosts).1 = "unknown") ∧
    verifyEmail dns3 net3 "zz9" "user@example.org" "s" = "valid" := by
  refine ⟨fun net sender email domain freshLocal host rest h => ?_,
    fun net sender email domain freshLocal hosts h => ?_, by decide⟩
  · simp only [probeLoop]
    rw [if_pos h]
  · induction hosts with
    | nil => simp [probeLoop]
    | cons host rest ih =>
      simp only [probeLoop]
      rw [if_pos (h host (List.mem_cons_self host rest))]
      exact ih fun t ht => h t (List.mem_cons_of_mem host ht)

/-- Witness for C3: a timing-out host falls through to the rest of the host
list. -/
theorem claim_C3_witness :
    probeLoop netNone "s" "u@d.com" "d.com" "zz" ["mx1"] =
      ((probeLoop netNone "s" "u@d.com" "d.com" "zz" []).1,
        ("mx1", "u@d.com") :: (probeLoop netNone "s" "u@d.com" "d.com" "zz" []).2) :=
  claim_C3.1 netNone "s" "u@d.com" "d.com" "zz" "mx1" [] (by decide)

/-- Claim C4 (amended): given the buffer containing both lines the parser
returns code 250, and given only the continuation buffer it also returns
code 250 — the line pattern `three digits then space or hyphen` matches
continuation lines too, so the parser does not wait for the final
space-separated line. -/
theorem claim_C4_amended :
    parseSMTPResponse "250-line one\r\n250 line two\r\n" =
      some ⟨250, "250-line one\n250 line two"⟩ ∧
    parseSMTPResponse "250-line one\r\n" = some ⟨250, "250-line one"⟩ := by decide

/-- Counterexample to C4 as stated: on the continuation-only buffer the
parser does not report the reply as incomplete; it returns code 250. -/
theorem claim_C4_counterexample :
    parseSMTPResponse "250-line one\r\n" ≠ none ∧
    parseSMTPResponse "250-line one\r\n" = some ⟨250, "250-line one"⟩ := by decide

/-- Claim C5 (amended): when the MX lookup fulfils with one or more records
the resolver returns their hostnames sorted ascending by priority (a stable
sort; the result is a permutation of the records, sorted by priority) with
any trailing root-label dot stripped; an MX lookup that fulfils with zero
records returns the empty list with no fallback; the A/AAAA fallback runs
only when the MX lookup rejects, returning `[domain]` when the IPv4 lookup
yields a nonempty result, or — only when the IPv4 lookup yields an empty
result without rejecting — when the IPv6 lookup yields a nonempty result;
a rejected or empty fallback chain returns the empty list. -/
theorem claim_C5_amended :
    (∀ env domain mx, DnsEnv.resolveMx env domain = Except.ok mx → mx ≠ [] →
      getMxHosts env domain =
          (List.insertionSort mxLe mx).map (fun m => stripTrailingDot m.exchange) ∧
        (List.insertionSort mxLe mx).Perm mx ∧
        List.Sorted mxLe (List.insertionSort mxLe mx)) ∧
    (∀ env domain, DnsEnv.resolveMx env domain = Except.ok [] →
      getMxHosts env domain = []) ∧
    (∀ env domain msg a, DnsEnv.resolveMx env domain = Except.error msg →
      DnsEnv.resolve4 env domain = Except.ok a → a ≠ [] →
      getMxHosts env domain = [domain]) ∧
    (∀ env domain msg a6, DnsEnv.resolveMx env domain = Except.error msg →
      DnsEnv.resolve4 env domain = Except.ok [] →
      DnsEnv.resolve6 env domain = Except.ok a6 → a6 ≠ [] →
      getMxHosts env domain = [domain]) ∧
    (∀ env domain msg msg4, DnsEnv.resolveMx env domain = Except.error msg →
      DnsEnv.resolve4 env domain = Except.error msg4 →
      getMxHosts env domain = []) ∧
    (∀ env domain msg msg6, DnsEnv.resolveMx env domain = Except.error msg →
      DnsEnv.resolve4 env domain = Except.ok [] →
      DnsEnv.resolve6 env domain = Except.error msg6 →
      getMxHosts env domain = []) ∧
    (∀ env domain msg, DnsEnv.resolveMx env domain = Except.error msg →
      DnsEnv.resolve4 env domain = Except.ok [] →
      DnsEnv.resolve6 env domain = Except.ok [] →
      getMxHosts env domain = []) := by
  refine ⟨fun env domain mx hmx hne => ?_, fun env domain hmx => ?_,
    fun env domain msg a hmx h4 hne => ?_, fun env domain msg a6 hmx h4 h6 hne => ?_,
    fun env domain msg msg4 hmx h4 => ?_, fun env domain msg msg6 hmx h4 h6 => ?_,
    fun env domain msg hmx h4 h6 => ?_⟩
  · have hne2 : ¬ mx.isEmpty = true := by
      cases mx with
      | nil => exact absurd rfl hne
      | cons a l => simp
    refine ⟨?_, List.perm_insertionSort mxLe mx, List.sorted_insertionSort mxLe mx⟩
    simp only [getMxHosts, hmx]
    rw [if_neg hne2]
  · simp [getMxHosts, hmx]
  · simp only [getMxHosts, hmx, h4]
    rw [if_pos hne]
  · simp only [getMxHosts, hmx, h4, h6]
    rw [if_pos hne]
    simp
  · simp [getMxHosts, hmx, h4]
  · simp [getMxHosts, hmx, h4, h6]
  · simp [getMxHosts, hmx, h4, h6]

/-- Witness for C5: two MX records given out of priority order come back
sorted by priority with the trailing dot stripped. -/
theorem claim_C5_witness :
    (getMxHosts env5 "d.com" =
        (List.insertionSort mxLe mx5).map (fun m => stripTrailingDot m.exchange) ∧
      (List.insertionSort mxLe mx5).Perm mx5 ∧
      List.Sorted mxLe (List.insertionSort mxLe mx5)) ∧
    getMxHosts env5 "d.com" = ["mx1.d.com", "mx2.d.com"] :=
  ⟨claim_C5_amended.1 env5 "d.com" mx5 rfl (by decide), by decide⟩

/-- Counterexample to C5 as stated: an MX lookup that fulfils with zero
records while the IPv4 lookup resolves returns the empty list — no fallback
runs, although the claim requires `[domain]` and requires the empty list
only when all lookups fail. -/
theorem claim_C5_counterexample :
    DnsEnv.resolveMx envC5 "example.com" = Except.ok [] ∧
    DnsEnv.resolve4 envC5 "example.com" = Except.ok ["93.184.216.34"] ∧
    getMxHosts envC5 "example.com" = [] ∧
    ([] : List String) ≠ ["example.com"] := ⟨rfl, rfl, by decide, by decide⟩

/-- Claim C6: for every input and every outcome of resolution and probing,
the engine returns exactly one value of the closed eight-value
classification enumeration; inside the probe session, connection errors,
the session timeout, a MAIL FROM failure and a RCPT TO failure all resolve
to a sentinel reply with code 0 rather than propagating, and any reply with
a nonzero code is one produced by the response parser. -/
theorem claim_C6 :
    (∀ (dns : DnsEnv) (net : String → String → SessionOutcome)
        (freshLocal email sender : String),
      verifyEmail dns net freshLocal email sender ∈
        (["invalid_format", "role_based", "no_mx_record", "disposable",
          "valid", "catch_all", "invalid", "unknown"] : List String)) ∧
    (∀ (host : String) (port : Nat) (sender rcptAddr msg : String),
      (smtpProbe host port sender rcptAddr (SessionOutcome.connectError msg)).rcpt =
        ⟨0, "socket_error: " ++ msg⟩) ∧
    (∀ (host : String) (port : Nat) (sender rcptAddr : String),
      (smtpProbe host port sender rcptAddr SessionOutcome.globalTimeout).rcpt =
        ⟨0, "timeout"⟩) ∧
    (∀ (host : String) (port : Nat) (sender rcptAddr : String)
        (e mf rc : CmdOutcome) (msg : String), runCmd mf = Except.error msg →
      (smtpProbe host port sender rcptAddr (SessionOutcome.connected e mf rc)).rcpt =
        ⟨0, "protocol_error: " ++ msg⟩) ∧
    (∀ (host : String) (port : Nat) (sender rcptAddr : String)
        (e mf rc : CmdOutcome) (msg : String) (r : Reply), runCmd mf = Except.ok r →
      runCmd rc = Except.error msg →
      (smtpProbe host port sender rcptAddr (SessionOutcome.connected e mf rc)).rcpt =
        ⟨0, msg⟩) ∧
    (∀ (host : String) (port : Nat) (sender rcptAddr : String) (o : SessionOutcome),
      (smtpProbe host port sender rcptAddr o).rcpt.code ≠ 0 →
      ∃ s, parseSMTPResponse s = some (smtpProbe host port sender rcptAddr o).rcpt) := by
  refine ⟨fun dns net freshLocal email sender => ?_,
    fun host port sender rcptAddr msg => rfl,
    fun host port sender rcptAddr => rfl,
    fun host port sender rcptAddr e mf rc msg h => ?_,
    fun host port sender rcptAddr e mf rc msg r hmf hrc => ?_,
    fun host port sender rcptAddr o hne => ?_⟩
  · rcases hs : jsSplit '@' email with _ | ⟨a, _ | ⟨b, _ | ⟨c, tl⟩⟩⟩
    · simp [verifyEmail, hs]
    · simp [verifyEmail, hs]
    · simp only [verifyEmail, hs]
      by_cases h1 : lowerStr a ∈ roleBased
      · rw [if_pos h1]
        decide
      · rw [if_neg h1]
        by_cases h2 : (getMxHosts dns b).isEmpty = true
        · rw [if_pos h2]
          decide
        · rw [if_neg h2]
          by_cases h3 : b ∈ disposableDomains
          · rw [if_pos h3]
            decide
          · rw [if_neg h3]
            have hm := probeLoop_fst_mem net sender email b freshLocal (getMxHosts dns b)
            simp only [List.mem_cons, List.not_mem_nil, or_false] at hm
            rcases hm with hm | hm | hm | hm <;> rw [hm] <;> decide
    · simp [verifyEmail, hs]
  · simp [smtpProbe, smtpProbeFull, h]
  · simp [smtpProbe, smtpProbeFull, hmf, hrc]
  · cases o with
    | connectError msg => exact absurd rfl hne
    | globalTimeout => exact absurd rfl hne
    | connected e mf rc =>
      simp only [smtpProbe, smtpProbeFull] at hne ⊢
      revert hne
      cases hmf : runCmd mf with
      | error msg => intro hne; exact absurd rfl hne
      | ok r1 =>
        cases hrc : runCmd rc with
        | error msg => intro hne; exact absurd rfl hne
        | ok r2 =>
          intro hne
          obtain ⟨⟨s, hs⟩, _⟩ := runCmd_ok rc r2 hrc
          exact ⟨s, hs⟩

/-- Witness for C6: a MAIL FROM write failure resolves as a code-0
protocol-error sentinel, and a session whose RCPT TO got a parsed 250 reply
produced a parser-derived reply. -/
theorem claim_C6_witness :
    (smtpProbe "h" 25 "s" "t" (SessionOutcome.connected (CmdOutcome.polls [])
        (CmdOutcome.writeError "broken pipe") (CmdOutcome.polls []))).rcpt =
      ⟨0, "protocol_error: " ++ "broken pipe"⟩ ∧
    (∃ s, parseSMTPResponse s =
      some (smtpProbe "h" 25 "s" "t" (sessionReplying "250 ok\r\n")).rcpt) :=
  ⟨claim_C6.2.2.2.1 "h" 25 "s" "t" (CmdOutcome.polls [])
      (CmdOutcome.writeError "broken pipe") (CmdOutcome.polls []) "broken pipe" rfl,
   claim_C6.2.2.2.2.2 "h" 25 "s" "t" (sessionReplying "250 ok\r\n") (by decide)⟩

/-- Claim C7: the engine's static short-circuits apply in a fixed order —
an address not splitting into exactly two parts on the at sign yields
invalid_format before anything else; a role-based local part (lowercased)
yields role_based for every DNS environment; an empty candidate-host list
yields no_mx_record (even for a disposable domain); and only with a
nonempty host list is a disposable domain classified disposable. -/
theorem claim_C7 :
    (∀ (dns : DnsEnv) (net : String → String → SessionOutcome)
        (freshLocal email sender : String),
      (jsSplit '@' email).length ≠ 2 →
      verifyEmail dns net freshLocal email sender = "invalid_format") ∧
    (∀ (dns : DnsEnv) (net : String → String → SessionOutcome)
        (freshLocal email sender localPart domain : String),
      jsSplit '@' email = [localPart, domain] →
      lowerStr localPart ∈ roleBased →
      verifyEmail dns net freshLocal email sender = "role_based") ∧
    (∀ (dns : DnsEnv) (net : String → String → SessionOutcome)
        (freshLocal email sender localPart domain : String),
      jsSplit '@' email = [localPart, domain] →
      lowerStr localPart ∉ roleBased →
      getMxHosts dns domain = [] →
      verifyEmail dns net freshLocal email sender = "no_mx_record") ∧
    (∀ (dns : DnsEnv) (net : String → String → SessionOutcome)
        (freshLocal email sender localPart domain : String),
      jsSplit '@' email = [localPart, domain] →
      lowerStr localPart ∉ roleBased →
      getMxHosts dns domain ≠ [] →
      domain ∈ disposableDomains →
      verifyEmail dns net freshLocal email sender = "disposable") := by
  refine ⟨fun dns net freshLocal email sender h => ?_,
    fun dns net freshLocal email sender localPart domain hs hr =>
      verifyEmail_role_eq dns net freshLocal email sender localPart domain hs hr,
    fun dns net freshLocal email sender localPart domain hs hr hm => ?_,
    fun dns net freshLocal email sender localPart domain hs hr hm hd => ?_⟩
  · rcases hsp : jsSplit '@' email with _ | ⟨a, _ | ⟨b, _ | ⟨c, tl⟩⟩⟩
    · simp [verifyEmail, hsp]
    · simp [verifyEmail, hsp]
    · rw [hsp] at h
      simp at h
    · simp [verifyEmail, hsp]
  · simp only [verifyEmail, hs]
    rw [if_neg hr, if_pos (by simp [hm])]
  · have hm2 : ¬ (getMxHosts dns domain).isEmpty = true := by
      cases hmx : getMxHosts dns domain with
      | nil => exact absurd hmx hm
      | cons a l => simp
    simp only [verifyEmail, hs]
    rw [if_neg hr, if_neg hm2, if_pos hd]

/-- Witness for C7: a malformed address, a role account at an unresolvable
domain, a disposable domain that does not resolve (classified no_mx_record,
not disposable), and a disposable domain that resolves. -/
theorem claim_C7_witness :
    verifyEmail dnsEmpty netNone "f" "no-at-sign" "s" = "invalid_format" ∧
    verifyEmail dnsEmpty netNone "f" "Admin@nonexistent.invalid" "s" = "role_based" ∧
    verifyEmail dnsEmpty netNone "f" "u@mailinator.com" "s" = "no_mx_record" ∧
    verifyEmail dnsDisp netNone "f" "u@mailinator.com" "s" = "disposable" :=
  ⟨claim_C7.1 dnsEmpty netNone "f" "no-at-sign" "s" (by decide),
   claim_C7.2.1 dnsEmpty netNone "f" "Admin@nonexistent.invalid" "s" "Admin"
     "nonexistent.invalid" (by decide) (by decide),
   claim_C7.2.2.1 dnsEmpty netNone "f" "u@mailinator.com" "s" "u" "mailinator.com"
     (by decide) (by decide) (by decide),
   claim_C7.2.2.2 dnsDisp netNone "f" "u@mailinator.com" "s" "u" "mailinator.com"
     (by decide) (by decide) (by decide) (by decide)⟩

/-- Claim C8: a probe session whose timeout elapses at any stage — the
global session timer, or an exhausted per-command wait in MAIL FROM or
RCPT TO — resolves with a sentinel reply of code 0, and on every outcome
the connection is released before the session resolves. -/
theorem claim_C8 :
    (∀ (host : String) (port : Nat) (sender rcptAddr : String) (o : SessionOutcome),
      (smtpProbeFull host port sender rcptAddr o).2 = true) ∧
    (∀ (host : String) (port : Nat) (sender rcptAddr : String),
      (smtpProbeFull host port sender rcptAddr SessionOutcome.globalTimeout).1.rcpt =
        ⟨0, "timeout"⟩) ∧
    (∀ (host : String) (port : Nat) (sender rcptAddr : String)
        (e mf rc : CmdOutcome) (msg : String), runCmd mf = Except.error msg →
      (smtpProbeFull host port sender rcptAddr
        (SessionOutcome.connected e mf rc)).1.rcpt.code = 0) ∧
    (∀ (host : String) (port : Nat) (sender rcptAddr : String)
        (e mf rc : CmdOutcome) (msg : String), runCmd rc = Except.error msg →
      (smtpProbeFull host port sender rcptAddr
        (SessionOutcome.connected e mf rc)).1.rcpt.code = 0) := by
  refine ⟨fun host port sender rcptAddr o => ?_,
    fun host port sender rcptAddr => rfl,
    fun host port sender rcptAddr e mf rc msg h => by simp [smtpProbeFull, h],
    fun host port sender rcptAddr e mf rc msg h => ?_⟩
  · cases o with
    | connectError msg => rfl
    | globalTimeout => rfl
    | connected e mf rc =>
      simp only [smtpProbeFull]
      cases runCmd mf with
      | error msg => rfl
      | ok r1 =>
        cases runCmd rc with
        | error msg => rfl
        | ok r2 => rfl
  · simp only [smtpProbeFull]
    cases hmf : runCmd mf with
    | error msg2 => rfl
    | ok r1 => rw [h]

/-- Witness for C8: an exhausted RCPT TO wait (per-command timeout) resolves
with code 0, as does the global session timer. -/
theorem claim_C8_witness :
    (smtpProbeFull "h" 25 "s" "t" (SessionOutcome.connected (CmdOutcome.polls [])
        (CmdOutcome.polls ["250 ok\r\n"]) (CmdOutcome.polls []))).1.rcpt.code = 0 ∧
    (smtpProbeFull "h" 25 "s" "t" SessionOutcome.globalTimeout).1.rcpt =
      ⟨0, "timeout"⟩ :=
  ⟨claim_C8.2.2.2 "h" 25 "s" "t" (CmdOutcome.polls []) (CmdOutcome.polls ["250 ok\r\n"])
      (CmdOutcome.polls []) "smtp command timeout" rfl,
   claim_C8.2.1 "h" 25 "s" "t"⟩

/-- Claim C9 (amended): every transport reply has a code that is an integer
in `[0, 999]` — the parser extracts any three decimal digits, so codes in
`[600, 999]` (and code 0, from the digits 000) are possible parser outputs,
not only `[0, 599]`; a parsed code 0 never resolves a command wait inside a
probe session, so in probe results code 0 occurs only as the
no-parseable-reply sentinel; and every probe result's code is at
most 999. -/
theorem claim_C9_amended :
    (∀ (text : String) (r : Reply), parseSMTPResponse text = some r → r.code ≤ 999) ∧
    (∀ (snaps : List String) (r : Reply), waitResp snaps = Except.ok r → r.code ≠ 0) ∧
    (∀ (host : String) (port : Nat) (sender rcptAddr : String) (o : SessionOutcome),
      (smtpProbe host port sender rcptAddr o).rcpt.code ≤ 999) := by
  refine ⟨fun text r h => parse_code_le text r h,
    fun snaps r h => (waitResp_ok snaps r h).2,
    fun host port sender rcptAddr o => ?_⟩
  cases o with
  | connectError msg => simp [smtpProbe, smtpProbeFull]
  | globalTimeout => simp [smtpProbe, smtpProbeFull]
  | connected e mf rc =>
    simp only [smtpProbe, smtpProbeFull]
    cases hmf : runCmd mf with
    | error msg => simp
    | ok r1 =>
      cases hrc : runCmd rc with
      | error msg => simp
      | ok r2 =>
        obtain ⟨⟨s, hs⟩, _⟩ := runCmd_ok rc r2 hrc
        simpa using parse_code_le s r2 hs

/-- Witness for C9: the parser's reply to a plain 250 line has code at
most 999. -/
theorem claim_C9_witness :
    parseSMTPResponse "250 ok\r\n" = some ⟨250, "250 ok"⟩ ∧
    Reply.code ⟨250, "250 ok"⟩ ≤ 999 :=
  ⟨by decide, claim_C9_amended.1 "250 ok\r\n" ⟨250, "250 ok"⟩ (by decide)⟩

/-- Counterexample to C9 as stated: the parser produces code 999 for the
buffer containing the line 999, and 999 is not in `[0, 599]`. -/
theorem claim_C9_counterexample :
    parseSMTPResponse "999 hi\r\n" = some ⟨999, "999 hi"⟩ ∧
    ¬ (999 : Nat) ≤ 599 := by decide

/-- Claim C10: the disposable-domain membership test is case-sensitive exact
matching — an address whose domain differs from a disposable-set entry only
in letter case is never classified disposable — unlike the role-based check,
which lowercases the local part before comparing. -/
theorem claim_C10 :
    (∀ (dns : DnsEnv) (net : String → String → SessionOutcome)
        (freshLocal email sender localPart domain : String),
      jsSplit '@' email = [localPart, domain] →
      (∃ e ∈ disposableDomains, lowerStr domain = lowerStr e ∧ domain ≠ e) →
      verifyEmail dns net freshLocal email sender ≠ "disposable") ∧
    (∀ (dns : DnsEnv) (net : String → String → SessionOutcome)
        (freshLocal email sender localPart domain : String),
      jsSplit '@' email = [localPart, domain] →
      lowerStr localPart ∈ roleBased →
      verifyEmail dns net freshLocal email sender = "role_based") :=
  ⟨fun dns net freshLocal email sender localPart domain hs h =>
    verifyEmail_ne_disposable dns net freshLocal email sender localPart domain hs
      (caseVariant_not_mem domain h),
   fun dns net freshLocal email sender localPart domain hs hr =>
    verifyEmail_role_eq dns net freshLocal email sender localPart domain hs hr⟩

/-- Witness for C10: the domain Mailinator.com differs from the entry
mailinator.com only in case and is not classified disposable even though it
resolves, while the local part Admin is still caught by the lowercasing
role-based check. -/
theorem claim_C10_witness :
    verifyEmail dnsDisp netNone "f" "a@Mailinator.com" "s" ≠ "disposable" ∧
    verifyEmail dnsEmpty netNone "f" "Admin@x.y" "s" = "role_based" :=
  ⟨claim_C10.1 dnsDisp netNone "f" "a@Mailinator.com" "s" "a" "Mailinator.com"
      (by decide) ⟨"mailinator.com", by decide, by decide, by decide⟩,
   claim_C10.2 dnsEmpty netNone "f" "Admin@x.y" "s" "Admin" "x.y"
      (by decide) (by decide)⟩

end EmailVerifier
